import Mathlib

/-!
Verification of the Copilot service layer of the hangul-typing application.

The definitions below are a shallow embedding of `src-tauri/src/copilot.rs` and
`src-tauri/src/commands.rs`. External effects (CLI probes, the SDK client
build/start/stop, session creation, message send, and the stream of session
events) are passed in as explicit oracle arguments: a `Bool` for each probe
outcome, an `Except String _` for each fallible SDK call, and a finite trace of
`RecvOutcome`s for the per-iteration outcome of
`tokio::time::timeout(60s, events.recv())` inside the event loop of `ask`.
-/

namespace HangulTyping

/-- Mirrors `enum CopilotError` in copilot.rs. -/
inductive CopilotError where
  | NotInitialized
  | CliNotFound
  | NotAuthenticated
  | StartFailed (detail : String)
  | SessionFailed (detail : String)
  | SendFailed (detail : String)
  | Timeout
  deriving DecidableEq, Repr

/-- The `Display` rendering of `CopilotError` given by its `thiserror`
attributes (used by the command layer via `e.to_string()`). -/
def CopilotError.message : CopilotError → String
  | CopilotError.NotInitialized => "Copilot service not initialized"
  | CopilotError.CliNotFound =>
      "GitHub Copilot CLI not found. Please install it from https://docs.github.com/en/copilot/github-copilot-in-the-cli"
  | CopilotError.NotAuthenticated =>
      "GitHub Copilot CLI not authenticated. Run \x27gh auth login\x27 and \x27gh extension install github/gh-copilot\x27"
  | CopilotError.StartFailed d => "Failed to start Copilot client: " ++ d
  | CopilotError.SessionFailed d => "Failed to create session: " ++ d
  | CopilotError.SendFailed d => "Failed to send message: " ++ d
  | CopilotError.Timeout => "Session timeout"

/-- Mirrors `struct LearningContext` in copilot.rs.  In `ask` it only decorates
the prompt text sent to the opaque external session, so no claim depends on the
rendered text; `accuracy` (an `f32`) is carried but never inspected here. -/
structure LearningContext where
  current_level : Nat
  current_target : Option String
  recent_mistakes : List String
  accuracy : Float
  total_attempts : Nat

/-- Mirrors `struct AssistantResponse` in copilot.rs. -/
structure AssistantResponse where
  content : String
  tool_used : Option String
  deriving DecidableEq, Repr

/-- Mirrors `struct CopilotAvailability` in copilot.rs. -/
structure CopilotAvailability where
  cli_installed : Bool
  cli_authenticated : Bool
  available : Bool
  message : String
  deriving DecidableEq, Repr

/-- Mirrors `check_availability` in copilot.rs.  The two probe functions
`is_copilot_cli_installed` and `is_gh_authenticated` shell out to external
commands, so their outcomes are the oracle inputs `cli_installed` and
`cli_authenticated`; the rest of the function is the pure `match` below. -/
def check_availability (cli_installed cli_authenticated : Bool) : CopilotAvailability :=
  let p : Bool × String :=
    match cli_installed, cli_authenticated with
    | true, true => (true, "GitHub Copilot is ready")
    | true, false =>
        (false, "GitHub CLI not authenticated. Run \x27gh auth login\x27 to enable AI assistant.")
    | false, _ =>
        (false, "GitHub Copilot CLI not found. Install it to enable AI assistant.")
  { cli_installed := cli_installed
    cli_authenticated := cli_authenticated
    available := p.1
    message := p.2 }

/-- Stand-in for the opaque SDK `Client`; only its presence in the slot
matters to the service logic. -/
structure Client where
  id : Nat
  deriving DecidableEq, Repr

/-- The mutable state of `CopilotService`: the `client: Mutex<Option<Client>>`
slot and the `is_running: RwLock<bool>` flag (the immutable `system_prompt`
configuration string is omitted). -/
structure CopilotServiceState where
  client : Option Client
  is_running : Bool
  deriving DecidableEq, Repr

/-- The variants of `SessionEventData` that the event loop of `ask`
distinguishes; every other variant falls into `Other` (the `_ => {}` arm). -/
inductive SessionEventData where
  | AssistantMessageDelta (delta_content : String)
  | AssistantMessage (content : String)
  | SessionIdle
  | SessionError (message : String)
  | Other
  deriving DecidableEq, Repr

/-- Outcome of one iteration of
`tokio::time::timeout(Duration::from_secs(60), events.recv()).await`:
`Ok(Ok(event))`, `Ok(Err(_))` (channel closed/errored), or `Err(_)` (the
watchdog window elapsed with no event). -/
inductive RecvOutcome where
  | event (e : SessionEventData)
  | chanError
  | timeout
  deriving DecidableEq, Repr

/-- The watchdog window, from `Duration::from_secs(60)` in copilot.rs. -/
def watchdogSecs : Nat := 60

/-- The event-collection loop of `CopilotService::ask`, folded over a finite
trace of receive outcomes.  `acc` is `response_content`.  The source loop only
exits through idle (break → ok), a session error (return SendFailed), a channel
error (break → ok) or a timeout (return Timeout); an exhausted trace models a
channel that yields nothing further and is treated like closure. -/
def eventLoop (acc : String) : List RecvOutcome → Except CopilotError String
  | [] => Except.ok acc
  | o :: rest =>
    match o with
    | RecvOutcome.event ev =>
      match ev with
      | SessionEventData.AssistantMessageDelta d => eventLoop (acc ++ d) rest
      | SessionEventData.AssistantMessage c =>
          eventLoop (if acc.isEmpty then c else acc) rest
      | SessionEventData.SessionIdle => Except.ok acc
      | SessionEventData.SessionError m =>
          Except.error (CopilotError.SendFailed m)
      | SessionEventData.Other => eventLoop acc rest
    | RecvOutcome.chanError => Except.ok acc
    | RecvOutcome.timeout => Except.error CopilotError.Timeout

/-- Mirrors `CopilotService::ask`.  `sessionResult` is the outcome of
`client.create_session(config)`, `sendResult` of `session.send(...)`, and
`events` the trace of receive outcomes.  The prompt and optional context only
shape the text handed to the opaque `session.send`, so they do not influence
the returned value. -/
def ask (st : CopilotServiceState) (prompt : String) (context : Option LearningContext)
    (sessionResult : Except String Unit) (sendResult : Except String Unit)
    (events : List RecvOutcome) : Except CopilotError AssistantResponse :=
  match st.client with
  | none => Except.error CopilotError.NotInitialized
  | some _ =>
    match sessionResult with
    | Except.error e => Except.error (CopilotError.SessionFailed e)
    | Except.ok _ =>
      match sendResult with
      | Except.error e => Except.error (CopilotError.SendFailed e)
      | Except.ok _ =>
        match eventLoop "" events with
        | Except.error e => Except.error e
        | Except.ok content =>
            Except.ok { content := content, tool_used := none }

/-- `ask` paired with the resulting service state: the source method takes
`&self` and never writes the client slot or the running flag, so the state
passes through unchanged. -/
def askS (st : CopilotServiceState) (prompt : String) (context : Option LearningContext)
    (sessionResult : Except String Unit) (sendResult : Except String Unit)
    (events : List RecvOutcome) :
    CopilotServiceState × Except CopilotError AssistantResponse :=
  (st, ask st prompt context sessionResult sendResult events)

/-- Mirrors `CopilotService::start`.  `cli_installed`/`cli_authenticated` are
the probe outcomes consumed by the `check_availability()` call inside `start`;
`buildResult` is the outcome of `Client::builder()...build()` and
`startResult` of `client.start()`. -/
def start (st : CopilotServiceState) (cli_installed cli_authenticated : Bool)
    (buildResult : Except String Client) (startResult : Except String Unit) :
    CopilotServiceState × Except CopilotError Unit :=
  match st.client with
  | some _ => (st, Except.ok ())
  | none =>
    let availability := check_availability cli_installed cli_authenticated
    if !availability.cli_installed then
      (st, Except.error CopilotError.CliNotFound)
    else if !availability.cli_authenticated then
      (st, Except.error CopilotError.NotAuthenticated)
    else
      match buildResult with
      | Except.error e => (st, Except.error (CopilotError.StartFailed e))
      | Except.ok client =>
        match startResult with
        | Except.error e => (st, Except.error (CopilotError.StartFailed e))
        | Except.ok _ =>
            ({ client := some client, is_running := true }, Except.ok ())

/-- Mirrors `CopilotService::stop`.  `stopResult` is the outcome of the
underlying `client.stop()`; when no connection is held the source never
reaches that call, which is why the `none` branch ignores the oracle. -/
def stop (st : CopilotServiceState) (stopResult : Except String Unit) :
    CopilotServiceState × Except CopilotError Unit :=
  match st.client with
  | none => (st, Except.ok ())
  | some _ =>
    let st' : CopilotServiceState := { client := none, is_running := false }
    match stopResult with
    | Except.error e => (st', Except.error (CopilotError.SendFailed e))
    | Except.ok _ => (st', Except.ok ())

/-- Mirrors `CopilotService::get_hint`: templated prompt, no context. -/
def get_hint (st : CopilotServiceState) (target user_input : String) (level : Nat)
    (sessionResult sendResult : Except String Unit) (events : List RecvOutcome) :
    Except CopilotError AssistantResponse :=
  let prompt :=
    "The student is trying to type \"" ++ target ++ "\" but typed \"" ++ user_input ++
    "\". They are on level " ++ toString level ++
    ". Give a brief, encouraging hint about which key to press next. Don\x27t give away the full answer."
  ask st prompt none sessionResult sendResult events

/-- Mirrors `CopilotService::explain`: templated prompt, no context. -/
def explain (st : CopilotServiceState) (text : String)
    (sessionResult sendResult : Except String Unit) (events : List RecvOutcome) :
    Except CopilotError AssistantResponse :=
  let prompt :=
    "Explain the Korean character or word \"" ++ text ++
    "\": what it is, how to pronounce it (romanization), and exactly which English keys to press to type it on a 2-Bulsik keyboard."
  ask st prompt none sessionResult sendResult events

/-- Mirrors `CopilotService::analyze_mistake`: templated prompt, no context. -/
def analyze_mistake (st : CopilotServiceState) (expected actual : String)
    (sessionResult sendResult : Except String Unit) (events : List RecvOutcome) :
    Except CopilotError AssistantResponse :=
  let prompt :=
    "The student tried to type \"" ++ expected ++ "\" but typed \"" ++ actual ++
    "\". Briefly explain what went wrong and how to fix it."
  ask st prompt none sessionResult sendResult events

/-- Mirrors `struct CommandResponse<T>` in commands.rs. -/
structure CommandResponse (α : Type) where
  success : Bool
  data : Option α
  error : Option String
  deriving DecidableEq, Repr

/-- Mirrors `CommandResponse::ok`. -/
def CommandResponse.ok {α : Type} (data : α) : CommandResponse α :=
  { success := true, data := some data, error := none }

/-- Mirrors `CommandResponse::err`. -/
def CommandResponse.err {α : Type} (msg : String) : CommandResponse α :=
  { success := false, data := none, error := some msg }

/-- Mirrors `struct CopilotStatus` in commands.rs. -/
structure CopilotStatus where
  available : Bool
  running : Bool
  cli_installed : Bool
  cli_authenticated : Bool
  message : String
  deriving DecidableEq, Repr

/-- Mirrors the `copilot_check` command.  The source never consults the
service state at all and hard-codes `running: false`; the `st` argument is
kept to express exactly that independence. -/
def copilot_check (st : CopilotServiceState) (cli_installed cli_authenticated : Bool) :
    CommandResponse CopilotStatus :=
  let availability := check_availability cli_installed cli_authenticated
  CommandResponse.ok
    { available := availability.available
      running := false
      cli_installed := availability.cli_installed
      cli_authenticated := availability.cli_authenticated
      message := availability.message }

/-- Mirrors the `copilot_status` command: reads the live running flag and a
fresh probe, with its own message-selection chain. -/
def copilot_status (st : CopilotServiceState) (cli_installed cli_authenticated : Bool) :
    CommandResponse CopilotStatus :=
  let running := st.is_running
  let availability := check_availability cli_installed cli_authenticated
  CommandResponse.ok
    { available := availability.available && running
      running := running
      cli_installed := availability.cli_installed
      cli_authenticated := availability.cli_authenticated
      message :=
        if running then "AI assistant ready"
        else if !availability.cli_installed then "GitHub Copilot CLI not installed"
        else if !availability.cli_authenticated then "GitHub CLI not authenticated"
        else "AI assistant not running" }

/-- Mirrors the `copilot_ask` command: fast not-running check, then delegation
to `CopilotService::ask`, rendering errors through `Display`. -/
def copilot_ask (st : CopilotServiceState) (prompt : String)
    (context : Option LearningContext) (sessionResult sendResult : Except String Unit)
    (events : List RecvOutcome) : CommandResponse AssistantResponse :=
  if !st.is_running then
    CommandResponse.err "AI assistant not running. Copilot CLI may not be installed."
  else
    match ask st prompt context sessionResult sendResult events with
    | Except.ok response => CommandResponse.ok response
    | Except.error e => CommandResponse.err e.message

/-- Mirrors the `copilot_hint` command. -/
def copilot_hint (st : CopilotServiceState) (target user_input : String) (level : Nat)
    (sessionResult sendResult : Except String Unit) (events : List RecvOutcome) :
    CommandResponse AssistantResponse :=
  if !st.is_running then
    CommandResponse.err "AI assistant not available"
  else
    match get_hint st target user_input level sessionResult sendResult events with
    | Except.ok response => CommandResponse.ok response
    | Except.error e => CommandResponse.err e.message

/-- Mirrors the `copilot_explain` command. -/
def copilot_explain (st : CopilotServiceState) (text : String)
    (sessionResult sendResult : Except String Unit) (events : List RecvOutcome) :
    CommandResponse AssistantResponse :=
  if !st.is_running then
    CommandResponse.err "AI assistant not available"
  else
    match explain st text sessionResult sendResult events with
    | Except.ok response => CommandResponse.ok response
    | Except.error e => CommandResponse.err e.message

/-- Mirrors the `copilot_analyze_mistake` command. -/
def copilot_analyze_mistake (st : CopilotServiceState) (expected actual : String)
    (sessionResult sendResult : Except String Unit) (events : List RecvOutcome) :
    CommandResponse AssistantResponse :=
  if !st.is_running then
    CommandResponse.err "AI assistant not available"
  else
    match analyze_mistake st expected actual sessionResult sendResult events with
    | Except.ok response => CommandResponse.ok response
    | Except.error e => CommandResponse.err e.message

/-- A receive outcome on which the event loop keeps looping (a delta, a full
message, or an ignored event kind); idle, session-error, channel-error and
timeout all leave the loop. -/
def nonTerminal : RecvOutcome → Bool
  | RecvOutcome.event (SessionEventData.AssistantMessageDelta _) => true
  | RecvOutcome.event (SessionEventData.AssistantMessage _) => true
  | RecvOutcome.event SessionEventData.Other => true
  | _ => false

/-- Whether a receive outcome is the watchdog firing. -/
def isTimeout : RecvOutcome → Bool
  | RecvOutcome.timeout => true
  | _ => false

/-- A trace whose entries all keep the loop going, followed by a timeout,
makes the event loop return `Timeout` whatever was accumulated so far. -/
theorem eventLoop_timeout_of_nonTerminal (pre : List RecvOutcome)
    (h : pre.all nonTerminal = true) (acc : String) (rest : List RecvOutcome) :
    eventLoop acc (pre ++ RecvOutcome.timeout :: rest) =
      Except.error CopilotError.Timeout := by
  induction pre generalizing acc with
  | nil => rfl
  | cons o pre ih =>
    simp only [List.all_cons, Bool.and_eq_true] at h
    obtain ⟨ho, hpre⟩ := h
    cases o with
    | event ev =>
      cases ev with
      | AssistantMessageDelta d => exact ih hpre (acc ++ d)
      | AssistantMessage c => exact ih hpre (if acc.isEmpty then c else acc)
      | SessionIdle => simp [nonTerminal] at ho
      | SessionError m => simp [nonTerminal] at ho
      | Other => exact ih hpre acc
    | chanError => simp [nonTerminal] at ho
    | timeout => simp [nonTerminal] at ho

/-- A trace in which the watchdog never fires can never produce `Timeout`. -/
theorem eventLoop_ne_timeout (tr : List RecvOutcome)
    (h : tr.all (fun o => !(isTimeout o)) = true) (acc : String) :
    eventLoop acc tr ≠ Except.error CopilotError.Timeout := by
  induction tr generalizing acc with
  | nil => intro hc; cases hc
  | cons o tr ih =>
    simp only [List.all_cons, Bool.and_eq_true] at h
    obtain ⟨ho, htr⟩ := h
    cases o with
    | event ev =>
      cases ev with
      | AssistantMessageDelta d => exact ih htr (acc ++ d)
      | AssistantMessage c => exact ih htr (if acc.isEmpty then c else acc)
      | SessionIdle => intro hc; cases hc
      | SessionError m =>
        intro hc
        simp [eventLoop] at hc
      | Other => exact ih htr acc
    | chanError => intro hc; cases hc
    | timeout => simp [isTimeout] at ho

/-- C1: in ask's event fold, every partial-delta event appends its fragment to
the accumulator in arrival order, and a full-message event sets the accumulator
only when it is still empty and is never appended; concretely, deltas "안","녕"
then idle yield content "안녕", delta "a" then full-message "ab" then idle
yields "a", and a lone full-message "hello" then idle yields "hello". -/
theorem ask_fold_delta_append_full_message_fallback :
    (∀ (acc d : String) (rest : List RecvOutcome),
       eventLoop acc (RecvOutcome.event (SessionEventData.AssistantMessageDelta d) :: rest)
         = eventLoop (acc ++ d) rest) ∧
    (∀ (acc c : String) (rest : List RecvOutcome),
       eventLoop acc (RecvOutcome.event (SessionEventData.AssistantMessage c) :: rest)
         = eventLoop (if acc.isEmpty then c else acc) rest) ∧
    ask ⟨some ⟨0⟩, true⟩ "p" none (Except.ok ()) (Except.ok ())
        [RecvOutcome.event (SessionEventData.AssistantMessageDelta "안"),
         RecvOutcome.event (SessionEventData.AssistantMessageDelta "녕"),
         RecvOutcome.event SessionEventData.SessionIdle]
      = Except.ok { content := "안녕", tool_used := none } ∧
    ask ⟨some ⟨0⟩, true⟩ "p" none (Except.ok ()) (Except.ok ())
        [RecvOutcome.event (SessionEventData.AssistantMessageDelta "a"),
         RecvOutcome.event (SessionEventData.AssistantMessage "ab"),
         RecvOutcome.event SessionEventData.SessionIdle]
      = Except.ok { content := "a", tool_used := none } ∧
    ask ⟨some ⟨0⟩, true⟩ "p" none (Except.ok ()) (Except.ok ())
        [RecvOutcome.event (SessionEventData.AssistantMessage "hello"),
         RecvOutcome.event SessionEventData.SessionIdle]
      = Except.ok { content := "hello", tool_used := none } :=
  ⟨fun acc d rest => rfl, fun acc c rest => rfl, rfl, rfl, rfl⟩

/-- C2: for every probe outcome, the `available` field of `check_availability`
equals `cli_installed && cli_authenticated`, and the message follows the
first-match policy: both true → ready; installed but not authenticated →
authenticate; not installed → install (authenticated value irrelevant). -/
theorem check_availability_verdict (i a : Bool) :
    (check_availability i a).available = (i && a) ∧
    (check_availability i a).message =
      (if i && a then "GitHub Copilot is ready"
       else if i then
         "GitHub CLI not authenticated. Run \x27gh auth login\x27 to enable AI assistant."
       else "GitHub Copilot CLI not found. Install it to enable AI assistant.") := by
  cases i <;> cases a <;> exact ⟨rfl, rfl⟩

/-- C2 witness: evaluated at the installed-but-not-authenticated probe. -/
theorem check_availability_verdict_witness :
    (check_availability true false).available = (true && false) ∧
    (check_availability true false).message =
      (if true && false then "GitHub Copilot is ready"
       else if true then
         "GitHub CLI not authenticated. Run \x27gh auth login\x27 to enable AI assistant."
       else "GitHub Copilot CLI not found. Install it to enable AI assistant.") :=
  check_availability_verdict true false

/-- C3: each wait for the next event is bounded by the fixed 60-second
watchdog; the window re-arms per received event, so a trace with no
watchdog-firing outcome never yields `Timeout`, while the watchdog firing after
any run of in-window events aborts `ask` with `Timeout` and leaves the held
connection and running flag unchanged (the state component of `askS` is the
input state, so the connection remains usable). -/
theorem ask_watchdog_timeout :
    watchdogSecs = 60 ∧
    (∀ (c : Client) (run : Bool) (p : String) (pre rest : List RecvOutcome),
       pre.all nonTerminal = true →
       askS ⟨some c, run⟩ p none (Except.ok ()) (Except.ok ())
           (pre ++ RecvOutcome.timeout :: rest)
         = (⟨some c, run⟩, Except.error CopilotError.Timeout)) ∧
    (∀ (st : CopilotServiceState) (p : String) (ctx : Option LearningContext)
       (sr dr : Except String Unit) (tr : List RecvOutcome),
       tr.all (fun o => !(isTimeout o)) = true →
       (askS st p ctx sr dr tr).1 = st ∧
       (askS st p ctx sr dr tr).2 ≠ Except.error CopilotError.Timeout) := by
  refine ⟨rfl, ?_, ?_⟩
  · intro c run p pre rest h
    have hloop := eventLoop_timeout_of_nonTerminal pre h "" rest
    simp [askS, ask, hloop]
  · intro st p ctx sr dr tr h
    refine ⟨rfl, ?_⟩
    have hloop := eventLoop_ne_timeout tr h ""
    cases hst : st.client with
    | none => simp [askS, ask, hst]
    | some c =>
      cases sr with
      | error e => simp [askS, ask, hst]
      | ok u =>
        cases dr with
        | error e => simp [askS, ask, hst]
        | ok u' =>
          simp only [askS, ask, hst]
          cases hev : eventLoop "" tr with
          | error e =>
            intro hc
            simp at hc
            exact hloop (hc ▸ hev)
          | ok content => simp

/-- C3 witness: one in-window delta then a stalled window times out, state
unchanged; and a timeout-free trace does not time out. -/
theorem ask_watchdog_timeout_witness :
    askS ⟨some ⟨0⟩, true⟩ "p" none (Except.ok ()) (Except.ok ())
        ([RecvOutcome.event (SessionEventData.AssistantMessageDelta "hi")] ++
          RecvOutcome.timeout :: [])
      = (⟨some ⟨0⟩, true⟩, Except.error CopilotError.Timeout) ∧
    (askS ⟨some ⟨0⟩, true⟩ "p" none (Except.ok ()) (Except.ok ())
        [RecvOutcome.event SessionEventData.SessionIdle]).2
      ≠ Except.error CopilotError.Timeout :=
  ⟨ask_watchdog_timeout.2.1 ⟨0⟩ true "p"
      [RecvOutcome.event (SessionEventData.AssistantMessageDelta "hi")] [] (by decide),
   (ask_watchdog_timeout.2.2 ⟨some ⟨0⟩, true⟩ "p" none (Except.ok ()) (Except.ok ())
      [RecvOutcome.event SessionEventData.SessionIdle] (by decide)).2⟩

/-- C4: an error-kind event terminates the fold immediately with `SendFailed`
carrying that event's message, discarding whatever was already accumulated
(the law holds for every accumulator value); concretely, a delta "partial"
followed by an error event "boom" makes `ask` fail with SendFailed "boom". -/
theorem ask_error_event_aborts :
    (∀ (acc m : String) (rest : List RecvOutcome),
       eventLoop acc (RecvOutcome.event (SessionEventData.SessionError m) :: rest)
         = Except.error (CopilotError.SendFailed m)) ∧
    ask ⟨some ⟨0⟩, true⟩ "p" none (Except.ok ()) (Except.ok ())
        [RecvOutcome.event (SessionEventData.AssistantMessageDelta "partial"),
         RecvOutcome.event (SessionEventData.SessionError "boom"),
         RecvOutcome.event SessionEventData.SessionIdle]
      = Except.error (CopilotError.SendFailed "boom") := by
  exact ⟨fun acc m rest => rfl, rfl⟩

/-- C5: `stop` with no connection held succeeds without consulting the
underlying stop outcome; with a connection held, the slot is cleared and the
running flag set to false whatever the underlying stop returns, and a failing
underlying stop surfaces `SendFailed` while the slot stays cleared. -/
theorem stop_clears_slot_before_fallible_stop :
    (∀ (run : Bool) (r : Except String Unit),
       stop ⟨none, run⟩ r = (⟨none, run⟩, Except.ok ())) ∧
    (∀ (c : Client) (run : Bool) (r : Except String Unit),
       (stop ⟨some c, run⟩ r).1 = ⟨none, false⟩) ∧
    (∀ (c : Client) (run : Bool) (d : String),
       stop ⟨some c, run⟩ (Except.error d)
         = (⟨none, false⟩, Except.error (CopilotError.SendFailed d))) := by
  refine ⟨fun run r => rfl, fun c run r => ?_, fun c run d => rfl⟩
  cases r <;> rfl

/-- C6 counterexample: with the service not running, `copilot_ask` and
`copilot_hint` fail fast with different fixed messages, so the four
conversational operations do not share one fixed "not running" message. -/
theorem conversational_messages_differ :
    (copilot_ask ⟨none, false⟩ "p" none (Except.ok ()) (Except.ok ()) []).error
      = some "AI assistant not running. Copilot CLI may not be installed." ∧
    (copilot_hint ⟨none, false⟩ "t" "u" 1 (Except.ok ()) (Except.ok ()) []).error
      = some "AI assistant not available" ∧
    ("AI assistant not running. Copilot CLI may not be installed." : String)
      ≠ "AI assistant not available" :=
  ⟨rfl, rfl, by decide⟩

/-- C6 amended: every conversational operation called while the running flag
is false fails immediately with a fixed message, independent of the session,
send and event oracles (so no session creation or connection interaction can
occur); `copilot_ask` uses the fixed message "AI assistant not running.
Copilot CLI may not be installed." while `copilot_hint`, `copilot_explain` and
`copilot_analyze_mistake` share the fixed message "AI assistant not
available" — the message is not the same across all four. -/
theorem conversational_not_running_fast_fail
    (c : Option Client) (p t u x e a : String) (lvl : Nat)
    (ctx : Option LearningContext) (sr dr : Except String Unit)
    (tr : List RecvOutcome) :
    copilot_ask ⟨c, false⟩ p ctx sr dr tr
      = CommandResponse.err "AI assistant not running. Copilot CLI may not be installed." ∧
    copilot_hint ⟨c, false⟩ t u lvl sr dr tr
      = CommandResponse.err "AI assistant not available" ∧
    copilot_explain ⟨c, false⟩ x sr dr tr
      = CommandResponse.err "AI assistant not available" ∧
    copilot_analyze_mistake ⟨c, false⟩ e a sr dr tr
      = CommandResponse.err "AI assistant not available" :=
  ⟨rfl, rfl, rfl, rfl⟩

/-- C7: if a `start` call succeeds, the resulting state holds a connection,
and a second `start` without an intervening `stop` returns success with the
state unchanged, independently of every oracle of the second call — so the
availability probe and the connection build/start side effects of the second
call are never performed (at most one probe/start across the pair). -/
theorem start_idempotent (st : CopilotServiceState) (i a : Bool)
    (b : Except String Client) (s : Except String Unit)
    (h : (start st i a b s).2 = Except.ok ()) :
    (start st i a b s).1.client.isSome = true ∧
    ∀ (i' a' : Bool) (b' : Except String Client) (s' : Except String Unit),
      start (start st i a b s).1 i' a' b' s' = ((start st i a b s).1, Except.ok ()) := by
  obtain ⟨cl, run⟩ := st
  cases cl with
  | some c => exact ⟨rfl, fun i' a' b' s' => rfl⟩
  | none =>
    cases i with
    | false => simp [start, check_availability] at h
    | true =>
      cases a with
      | false => simp [start, check_availability] at h
      | true =>
        cases b with
        | error e => simp [start, check_availability] at h
        | ok c =>
          cases s with
          | error e => simp [start, check_availability] at h
          | ok u =>
            exact ⟨rfl, fun i' a' b' s' => rfl⟩

/-- C7 witness: a successful fresh start followed by a second start with
failing oracles still returns success without touching them. -/
theorem start_idempotent_witness :
    start (start ⟨none, false⟩ true true (Except.ok ⟨1⟩) (Except.ok ())).1
        false false (Except.error "b") (Except.error "s")
      = ((start ⟨none, false⟩ true true (Except.ok ⟨1⟩) (Except.ok ())).1,
         Except.ok ()) :=
  (start_idempotent ⟨none, false⟩ true true (Except.ok ⟨1⟩) (Except.ok ()) rfl).2
    false false (Except.error "b") (Except.error "s")

/-- C8: with no connection held and both probes passing, a failing connection
build or a failing underlying start leaves the state unchanged (running stays
as it was, no connection stored) and surfaces `StartFailed` with the detail;
the connection is committed and running flipped to true exactly when the
underlying start succeeds. -/
theorem start_failure_leaves_state_unchanged (run : Bool) (e : String)
    (s : Except String Unit) (c : Client) :
    start ⟨none, run⟩ true true (Except.error e) s
      = (⟨none, run⟩, Except.error (CopilotError.StartFailed e)) ∧
    start ⟨none, run⟩ true true (Except.ok c) (Except.error e)
      = (⟨none, run⟩, Except.error (CopilotError.StartFailed e)) ∧
    start ⟨none, run⟩ true true (Except.ok c) (Except.ok ())
      = (⟨some c, true⟩, Except.ok ()) :=
  ⟨rfl, rfl, rfl⟩

/-- C9: a channel close/error outcome ends the fold early with success,
returning whatever was accumulated (for every accumulator value), and `ask`
then returns an answer with that content and no tool; concretely, deltas
"he","llo" then a channel error yield content "hello", and an immediate
channel error yields empty content. -/
theorem ask_channel_close_returns_partial :
    (∀ (acc : String) (rest : List RecvOutcome),
       eventLoop acc (RecvOutcome.chanError :: rest) = Except.ok acc) ∧
    ask ⟨some ⟨0⟩, true⟩ "p" none (Except.ok ()) (Except.ok ())
        [RecvOutcome.event (SessionEventData.AssistantMessageDelta "he"),
         RecvOutcome.event (SessionEventData.AssistantMessageDelta "llo"),
         RecvOutcome.chanError]
      = Except.ok { content := "hello", tool_used := none } ∧
    ask ⟨some ⟨0⟩, true⟩ "p" none (Except.ok ()) (Except.ok ()) [RecvOutcome.chanError]
      = Except.ok { content := "", tool_used := none } :=
  ⟨fun acc rest => rfl, rfl, rfl⟩

/-- C10: `copilot_check` reports `running = false` for every service state and
probe outcome (it never consults the live flag), while `copilot_status`
reports the live running flag. -/
theorem check_always_reports_not_running (st : CopilotServiceState) (i a : Bool) :
    (copilot_check st i a).data.map CopilotStatus.running = some false ∧
    (copilot_status st i a).data.map CopilotStatus.running = some st.is_running :=
  ⟨rfl, rfl⟩

/-- C10 witness: evaluated at a running service with both probes true. -/
theorem check_always_reports_not_running_witness :
    (copilot_check ⟨some ⟨0⟩, true⟩ true true).data.map CopilotStatus.running
      = some false ∧
    (copilot_status ⟨some ⟨0⟩, true⟩ true true).data.map CopilotStatus.running
      = some true :=
  check_always_reports_not_running ⟨some ⟨0⟩, true⟩ true true

end HangulTyping
